import Mathlib

/-!
Verification model of the `node-sentinels` circuit-breaker library.

The TypeScript source is shallowly embedded: each class becomes a structure,
each method a pure function threading the state explicitly, and the ambient
clock (`Date.now()` / `this.now`) becomes an explicit `now : Int` parameter
measured in milliseconds since the Unix epoch.  Fallible methods return
`Except`/`Option` values instead of throwing.
-/

/-- The value of `new Date('0001-01-01T00:00:00Z').getTime()` in JavaScript:
the "year 1" sentinel timestamp the source uses to mean "always eligible". -/
def minDateMs : Int := -62135596800000

/-- A JavaScript number as it can appear in the source's counter fields.
The fields `_consecutiveFailures` (default_circuit_breaker_policy.ts) and
`_errorCount` (threshold_execution_circuit_breaker.ts) are declared without
an initializer, so their first read yields `undefined`; the only operations
ever applied to them are `++`, ordered comparison, and assignment of an
integer.  Under `++` the value `undefined` becomes `NaN`, and both
`undefined` and `NaN` compare false under `<=` and `>`, so the uninitialized
state is modelled by the `nan` constructor. -/
inductive JSNum where
  | nan : JSNum
  | int : Int → JSNum
deriving DecidableEq, Repr

/-- JavaScript `x++` on a counter field: `NaN` (and `undefined`) stay `NaN`,
an integer is incremented. -/
def JSNum.incr : JSNum → JSNum
  | .nan => .nan
  | .int n => .int (n + 1)

/-- JavaScript `x <= m` for a counter field against an integer:
false when `x` is `NaN` (or `undefined`). -/
def JSNum.leInt : JSNum → Int → Bool
  | .nan, _ => false
  | .int n, m => n ≤ m

/-- JavaScript `x > m` for a counter field against an integer:
false when `x` is `NaN` (or `undefined`). -/
def JSNum.gtInt : JSNum → Int → Bool
  | .nan, _ => false
  | .int n, m => m < n

/-- Rendering of a JavaScript number inside a template literal.  For an
integer-valued double, JavaScript prints the plain integer (`${0}` gives
"0"); every numeric value reaching a message in the claims below is an
integer, so only the first branch is exercised. -/
def jsNumRepr (q : ℚ) : String :=
  if q.den = 1 then toString q.num else toString q.num ++ "/" ++ toString q.den

/-- `CircuitBreakerError` from circuit_breaker_base.ts: the error thrown when
a breaker is tripped, carrying its formatted message. -/
structure CircuitBreakerError where
  message : String
deriving DecidableEq, Repr

/-- State of `CircuitBreakerBase` (circuit_breaker_base.ts): the private
`_isTripped` flag, initialized to `false`, and the protected `trippedAt`
date, `undefined` until the breaker trips. -/
structure CircuitBreakerBase where
  isTripped : Bool := false
  trippedAt : Option Int := none
deriving DecidableEq, Repr

namespace CircuitBreakerBase

/-- `CircuitBreakerBase.trip()`: if already tripped, return `false` without
change; otherwise set `_isTripped = true`, `trippedAt = now`, return `true`. -/
def trip (s : CircuitBreakerBase) (now : Int) : Bool × CircuitBreakerBase :=
  if s.isTripped then (false, s)
  else (true, { isTripped := true, trippedAt := some now })

/-- `CircuitBreakerBase.reset()`: if not tripped, return `false` without
change; otherwise clear `_isTripped` and `trippedAt`, return `true`. -/
def reset (s : CircuitBreakerBase) : Bool × CircuitBreakerBase :=
  if !s.isTripped then (false, s)
  else (true, { isTripped := false, trippedAt := none })

/-- `CircuitBreakerBase.getTripError()`: reads the clock once, substitutes
that reading for an absent `trippedAt` (`this.trippedAt?.getTime() ?? now`),
divides the elapsed milliseconds by 1000 and formats the message.  `name` is
the abstract name property supplied by the concrete subclass. -/
def getTripError (s : CircuitBreakerBase) (name : String) (now : Int) :
    CircuitBreakerError :=
  let trippedAt : Int := now - (match s.trippedAt with
    | some t => t
    | none => now)
  let seconds : ℚ := (trippedAt : ℚ) / 1000
  { message :=
      "'" ++ name ++ "' has been tripped for " ++ jsNumRepr seconds ++ " seconds." }

/-- `CircuitBreakerBase.test()`: throws `getTripError()` when tripped,
otherwise a no-op.  The thrown error is modelled as a `some` result. -/
def test (s : CircuitBreakerBase) (name : String) (now : Int) :
    Option CircuitBreakerError :=
  if s.isTripped then some (s.getTripError name now) else none

end CircuitBreakerBase

/-- An error value flowing through the execution wrapper: either the
library's own `CircuitBreakerError` or any other JavaScript error, which the
wrapper must never confuse with a trip signal (`e instanceof
CircuitBreakerError` in _attemptToProceed). -/
inductive JSError where
  | circuitBreakerError : CircuitBreakerError → JSError
  | otherError : String → JSError
deriving DecidableEq, Repr

/-- State of `ExecutionCircuitBreakerBase` (execution_circuit_breaker_base.ts):
the inherited `CircuitBreakerBase` state, the `_nextRetry` date initialized to
the year-1 sentinel, and the `_shouldRetry` flag, which is declared without an
initializer (`undefined`) and is only ever used as a boolean
(`!this._shouldRetry`) or assigned a boolean, so it is modelled as `false`. -/
structure ExecutionCircuitBreakerBase where
  breaker : CircuitBreakerBase := {}
  nextRetry : Int := minDateMs
  shouldRetry : Bool := false
deriving DecidableEq, Repr

namespace ExecutionCircuitBreakerBase

/-- `_isTimeForRetry`: `super.now.getTime() >= this._nextRetry.getTime()`. -/
def isTimeForRetry (s : ExecutionCircuitBreakerBase) (now : Int) : Bool :=
  s.nextRetry ≤ now

/-- `_attemptToProceed()`, generic in the outcome of the virtual `this.test()`
call (subclasses and the repository's own tests may override `test`): a thrown
error that is not a `CircuitBreakerError` is rethrown; a `CircuitBreakerError`
is rethrown unless `_isTimeForRetry` and `_shouldRetry` both hold, in which
case it is swallowed (the half-open probe is allowed).  `none` models a normal
return. -/
def attemptToProceed (s : ExecutionCircuitBreakerBase) (now : Int)
    (testResult : Option JSError) : Option JSError :=
  match testResult with
  | none => none
  | some e =>
    match e with
    | .otherError _ => some e
    | .circuitBreakerError _ =>
      if !s.isTimeForRetry now || !s.shouldRetry then some e else none

/-- `_attemptToProceed()` as executed when `test` is not overridden: the
`testResult` is `CircuitBreakerBase.test`. -/
def gate (s : ExecutionCircuitBreakerBase) (name : String) (now : Int) :
    Option JSError :=
  s.attemptToProceed now ((s.breaker.test name now).map JSError.circuitBreakerError)

/-- Public `reset()` of the wrapper: restores `_nextRetry` to the year-1
sentinel and delegates to `CircuitBreakerBase.reset`, returning its boolean.
Note that `_shouldRetry` is not touched. -/
def reset (s : ExecutionCircuitBreakerBase) : Bool × ExecutionCircuitBreakerBase :=
  let r := s.breaker.reset
  (r.1, { s with nextRetry := minDateMs, breaker := r.2 })

/-- `execute(action)` / `executeAsync(action)` (both have identical
bookkeeping; only suspension differs).  The embedding is generic in the
concrete subclass's `shouldTrip`, which may carry its own state `σ` (the
threshold subclass mutates a failure window), and in its `retryInterval`.
Two clock readings are passed: `nowGate` for the gate check and `nowRun` for
the bookkeeping after the action ran.  `actionResult` is the action's
outcome (`none` = returned normally, `some e` = threw `e`); it is irrelevant
when the gate throws, since the action is then never invoked.

Control flow from the source: `_attemptToProceed()`; then
`try { action() } catch (e) { if (shouldTrip(e)) { _nextRetry = now +
retryInterval; trip(); } throw e; } finally { _shouldRetry = true; }`;
then `this.reset()` on the success path only. -/
def execute {σ : Type} (shouldTripF : JSError → σ → Bool × σ)
    (retryInterval : Int) (name : String)
    (s : ExecutionCircuitBreakerBase) (strat : σ)
    (nowGate nowRun : Int) (actionResult : Option JSError) :
    Option JSError × ExecutionCircuitBreakerBase × σ :=
  match s.gate name nowGate with
  | some e => (some e, s, strat)
  | none =>
    match actionResult with
    | none =>
      let s1 : ExecutionCircuitBreakerBase := { s with shouldRetry := true }
      (none, (s1.reset).2, strat)
    | some e =>
      let d := shouldTripF e strat
      let s1 : ExecutionCircuitBreakerBase :=
        if d.1 then
          { s with nextRetry := nowRun + retryInterval,
                   breaker := (s.breaker.trip nowRun).2 }
        else s
      (some e, { s1 with shouldRetry := true }, d.2)

end ExecutionCircuitBreakerBase

/-- Window state of `ThresholdExecutionCircuitBreaker`
(threshold_execution_circuit_breaker.ts): `_errorCountIntervalEnd` is
initialized to the year-1 sentinel; `_errorCount` is declared without an
initializer (see `JSNum`). -/
structure ThresholdState where
  errorCountIntervalEnd : Int := minDateMs
  errorCount : JSNum := JSNum.nan
deriving DecidableEq, Repr

/-- `_resetErrorCount()`: sets `_errorCount = 0` and
`_errorCountIntervalEnd = now + errorIntervalGetter()`.  The supplier
`errorIntervalGetter` is modelled by the value it returns. -/
def resetErrorCount (_st : ThresholdState) (now errorIntervalGetter : Int) :
    ThresholdState :=
  { errorCount := JSNum.int 0,
    errorCountIntervalEnd := now + errorIntervalGetter }

/-- `ThresholdExecutionCircuitBreaker.shouldTrip(error)`: throws when the
error argument is `undefined`/`null` (modelled as `Except.error` of the
thrown message; the spec's taxonomy calls this a `MissingArgumentError`).
Otherwise, when the failure detector classifies the error as a failure:
reset the window first if `now > _errorCountIntervalEnd`, increment
`_errorCount`, and return whether `_errorCount > errorCountGetter()`.
A non-failure returns `false` without touching the window.  The suppliers
`errorCountGetter`/`errorIntervalGetter` are modelled by their values. -/
def thresholdShouldTrip (st : ThresholdState) (failureDetector : JSError → Bool)
    (errorCountGetter errorIntervalGetter : Int) (now : Int)
    (error : Option JSError) : Except String (Bool × ThresholdState) :=
  match error with
  | none => .error "error cannot be null or undefined."
  | some e =>
    if failureDetector e then
      let st1 := if st.errorCountIntervalEnd < now
        then resetErrorCount st now errorIntervalGetter else st
      let st2 := { st1 with errorCount := st1.errorCount.incr }
      if st2.errorCount.gtInt errorCountGetter then .ok (true, st2)
      else .ok (false, st2)
    else .ok (false, st)

/-- The `Jitter` enum (jitter.ts). -/
inductive Jitter where
  | none : Jitter
  | full : Jitter
  | equal : Jitter
deriving DecidableEq, Repr

/-- `ExponentialBackoff.ceilingForMaxAttempts`. -/
def ceilingForMaxAttempts : Int := 10

/-- `ExponentialBackoff.calculateBackoff(attempt, maxAttempts, baseDelay,
maxDelay, jitter)`: throws (modelled as `.error`) when `maxAttempts < 0` or
`maxAttempts > 10`; clamps `attempt` down to `maxAttempts` when it exceeds
it; computes `min(baseDelay * 2^(attempt-1), maxDelay)`; draws one random
value (`Math.random()`, modelled by the explicit parameter
`nextRandomValue`) and applies the selected jitter.  Numbers are modelled as
exact rationals; `attempt`/`maxAttempts` are integers here, as in every use
in the repository. -/
def calculateBackoff (attempt maxAttempts : Int) (baseDelay maxDelay : ℚ)
    (jitter : Jitter) (nextRandomValue : ℚ) : Except String ℚ :=
  if maxAttempts < 0 ∨ ceilingForMaxAttempts < maxAttempts then
    .error "The max attempts must be between 0 and 10."
  else
    let attempt1 := if maxAttempts < attempt then maxAttempts else attempt
    let delay := min (baseDelay * (2 : ℚ) ^ (attempt1 - 1)) maxDelay
    match jitter with
    | .full => .ok (delay * nextRandomValue)
    | .equal => .ok (delay * (1/2 + nextRandomValue * (1/2)))
    | .none => .ok delay

/-- `IDefaultCircuitBreakerPolicyConfig`: the two numeric configuration
values read by `DefaultCircuitBreakerPolicy`
(`DefaultCircuitBreakerPolicyConfig` defaults them to 0 and 250). -/
structure PolicyConfig where
  failuresAllowedBeforeTrip : Int := 0
  retryInterval : Int := 250
deriving DecidableEq, Repr

/-- State of `DefaultCircuitBreakerPolicy`
(default_circuit_breaker_policy.ts): the internal `CircuitBreaker` (fresh,
untripped), `_shouldRetry` declared without an initializer and only ever
used as a boolean (modelled `false`), `_consecutiveFailures` declared
without an initializer (`undefined`, see `JSNum`), and `_nextRetry`
initialized to the year-1 sentinel. -/
structure DefaultCircuitBreakerPolicy where
  circuitBreaker : CircuitBreakerBase := {}
  shouldRetry : Bool := false
  consecutiveFailures : JSNum := JSNum.nan
  nextRetry : Int := minDateMs
deriving DecidableEq, Repr

namespace DefaultCircuitBreakerPolicy

/-- `isCircuitBreakerOpen(executionContext)`: `(false, undefined)` when the
internal breaker is untripped, or when `_nextRetry <= Date.now()` and
`_shouldRetry` is falsy; otherwise `(true, breaker.getTripError())`.
`name` is the circuit breaker identifier given at construction. -/
def isCircuitBreakerOpen (p : DefaultCircuitBreakerPolicy) (name : String)
    (now : Int) : Bool × Option CircuitBreakerError :=
  if !p.circuitBreaker.isTripped then (false, none)
  else if p.nextRetry ≤ now ∧ !p.shouldRetry then (false, none)
  else (true, some (p.circuitBreaker.getTripError name now))

/-- `CircuitBreakerPolicyBase.throwIfTripped(executionContext)`: destructure
`isCircuitBreakerOpen`; return normally when not open; otherwise invoke the
optional `onTerminatingRequest` callback (`onTerminatingRequest?.()` — the
boolean `callbackRegistered` says whether one is registered) and throw the
error.  The result records the thrown error (`none` = normal return) and
whether the callback was invoked. -/
def throwIfTripped (p : DefaultCircuitBreakerPolicy) (name : String)
    (now : Int) (callbackRegistered : Bool) :
    Option CircuitBreakerError × Bool :=
  let r := p.isCircuitBreakerOpen name now
  if !r.1 then (none, false)
  else (r.2, callbackRegistered)

/-- `onSuccessfulRequest(executionContext)`: `_consecutiveFailures = 0` and
reset of the internal breaker. -/
def onSuccessfulRequest (p : DefaultCircuitBreakerPolicy) :
    DefaultCircuitBreakerPolicy :=
  { p with consecutiveFailures := JSNum.int 0,
           circuitBreaker := (p.circuitBreaker.reset).2 }

/-- `onNotified(executionContext)`: `_shouldRetry = false`. -/
def onNotified (p : DefaultCircuitBreakerPolicy) : DefaultCircuitBreakerPolicy :=
  { p with shouldRetry := false }

/-- `tryToTripCircuitBreaker(executionContext)`: `_consecutiveFailures++`;
return `false` when `_consecutiveFailures <= config.failuresAllowedBeforeTrip`;
otherwise `_nextRetry = Date.now() + config.retryInterval`, trip the internal
breaker and return `true`. -/
def tryToTripCircuitBreaker (p : DefaultCircuitBreakerPolicy)
    (cfg : PolicyConfig) (now : Int) : Bool × DefaultCircuitBreakerPolicy :=
  let p1 := { p with consecutiveFailures := p.consecutiveFailures.incr }
  if p1.consecutiveFailures.leInt cfg.failuresAllowedBeforeTrip then (false, p1)
  else
    let p2 := { p1 with nextRetry := now + cfg.retryInterval,
                        circuitBreaker := (p1.circuitBreaker.trip now).2 }
    (true, p2)

/-- `CircuitBreakerPolicyBase.notifyRequestFinished(executionContext, error)`:
when `isReasonForTrip(executionContext, error)` holds, invoke the optional
`onRequestToOpen` callback and `tryToTripCircuitBreaker`; otherwise
`onSuccessfulRequest`; in a `finally`, `onNotified` always runs.  The caller
supplied trip-reason predicate is modelled by its boolean outcome. -/
def notifyRequestFinished (p : DefaultCircuitBreakerPolicy) (cfg : PolicyConfig)
    (now : Int) (isReasonForTrip : Bool) : DefaultCircuitBreakerPolicy :=
  let p1 := if isReasonForTrip then (p.tryToTripCircuitBreaker cfg now).2
            else p.onSuccessfulRequest
  p1.onNotified

end DefaultCircuitBreakerPolicy

/-- Base delay exactly as the claim words it (spec-side definition for the
refinement): clamp `attempt` down to `maxAttempts`, then
`min(baseDelay * 2^(attempt-1), maxDelay)`. -/
def backoffBaseDelay (attempt maxAttempts : Int) (baseDelay maxDelay : ℚ) : ℚ :=
  min (baseDelay * (2 : ℚ) ^ (min attempt maxAttempts - 1)) maxDelay

/-- Jitter application exactly as the claim words it (spec-side definition):
`None` returns the base delay unchanged, `Full` multiplies by the single
random draw `r`, `Equal` multiplies by `0.5 + 0.5 * r`. -/
def backoffWithJitter (base r : ℚ) : Jitter → ℚ
  | .none => base
  | .full => base * r
  | .equal => base * (1/2 + (1/2) * r)

/-- Whether an `Except`-modelled call threw. -/
def isThrown {α : Type} (r : Except String α) : Bool :=
  match r with
  | .error _ => true
  | .ok _ => false


/-- C8: `trip()` sets tripped and `trippedAt = now` only when not already
tripped and returns true iff it performed that transition; a second
consecutive `trip()` returns false and leaves the whole state (including
`trippedAt`) unchanged while `isTripped` remains true; `reset()` clears the
state only when currently tripped and returns true iff it performed that
transition. -/
theorem trip_and_reset_are_guarded_transitions
    (s : CircuitBreakerBase) (now now2 : Int) :
    (s.isTripped = true → s.trip now = (false, s)) ∧
    (s.isTripped = false →
      s.trip now = (true, { isTripped := true, trippedAt := some now })) ∧
    ((s.trip now).2.trip now2 = (false, (s.trip now).2) ∧
      (s.trip now).2.isTripped = true) ∧
    (s.isTripped = false → s.reset = (false, s)) ∧
    (s.isTripped = true →
      s.reset = (true, { isTripped := false, trippedAt := none })) := by
  obtain ⟨t, ta⟩ := s
  cases t <;> simp [CircuitBreakerBase.trip, CircuitBreakerBase.reset]

/-- Witness for C8 at concrete inputs: a fresh breaker trips at time 1, and
resetting a fresh breaker performs no transition. -/
theorem trip_and_reset_are_guarded_transitions_witness :
    CircuitBreakerBase.trip {} 1 =
      (true, { isTripped := true, trippedAt := some 1 }) ∧
    CircuitBreakerBase.reset {} = (false, {}) :=
  ⟨(trip_and_reset_are_guarded_transitions {} 1 2).2.1 rfl,
   (trip_and_reset_are_guarded_transitions {} 1 2).2.2.2.1 rfl⟩

/-- C10: `getTripError()` on a breaker whose `trippedAt` is absent
substitutes the current clock reading for the missing timestamp, so the
elapsed time is exactly 0 seconds and the message reads
"'name' has been tripped for 0 seconds.". -/
theorem getTripError_untripped_reports_zero_seconds
    (s : CircuitBreakerBase) (name : String) (now : Int)
    (h : s.trippedAt = none) :
    s.getTripError name now =
      { message := "'" ++ name ++ "' has been tripped for 0 seconds." } := by
  simp [CircuitBreakerBase.getTripError, h, jsNumRepr, String.append_assoc]
  rfl

/-- Witness for C10: a fresh breaker named "Test" queried at time 123456. -/
theorem getTripError_untripped_reports_zero_seconds_witness :
    CircuitBreakerBase.getTripError {} "Test" 123456 =
      { message := "'Test' has been tripped for 0 seconds." } :=
  getTripError_untripped_reports_zero_seconds {} "Test" 123456 rfl

/-- C1 fails on the code: `_consecutiveFailures` is declared without an
initializer, so on a freshly constructed policy the first
`tryToTripCircuitBreaker` increments `undefined` to `NaN`, the guard
`NaN <= failuresAllowedBeforeTrip` is false, and the breaker trips
immediately and `tryToTripCircuitBreaker` returns true — even though
`failuresAllowedBeforeTrip = 1 > 0` should allow the first failure through.
The counter never becomes a number until a successful notification assigns
it 0. -/
theorem fresh_policy_first_qualifying_failure_trips :
    DefaultCircuitBreakerPolicy.tryToTripCircuitBreaker {}
        { failuresAllowedBeforeTrip := 1, retryInterval := 250 } 1000 =
      (true,
       { circuitBreaker := { isTripped := true, trippedAt := some 1000 },
         shouldRetry := false,
         consecutiveFailures := JSNum.nan,
         nextRetry := 1250 }) ∧
    (DefaultCircuitBreakerPolicy.notifyRequestFinished {}
        { failuresAllowedBeforeTrip := 1, retryInterval := 250 } 1000
        true).circuitBreaker.isTripped = true := by
  constructor
  · rfl
  · rfl

/-- C9: `throwIfTripped` returns normally exactly when the internal breaker
is untripped, or tripped with `nextRetry <= now` and the `shouldRetry` flag
false (probe allowed); in every other case the optional
`onTerminatingRequest` callback is invoked when registered and the trip
error from `getTripError()` is raised. -/
theorem throwIfTripped_opens_iff_tripped_and_gated
    (p : DefaultCircuitBreakerPolicy) (name : String) (now : Int)
    (callbackRegistered : Bool) :
    (p.circuitBreaker.isTripped = false →
      p.throwIfTripped name now callbackRegistered = (none, false)) ∧
    (p.circuitBreaker.isTripped = true → p.nextRetry ≤ now →
      p.shouldRetry = false →
      p.throwIfTripped name now callbackRegistered = (none, false)) ∧
    (p.circuitBreaker.isTripped = true →
      ¬(p.nextRetry ≤ now ∧ p.shouldRetry = false) →
      p.throwIfTripped name now callbackRegistered =
        (some (p.circuitBreaker.getTripError name now), callbackRegistered)) := by
  refine ⟨fun h1 => ?_, fun h1 h2 h3 => ?_, fun h1 h2 => ?_⟩
  · simp [DefaultCircuitBreakerPolicy.throwIfTripped,
      DefaultCircuitBreakerPolicy.isCircuitBreakerOpen, h1]
  · simp [DefaultCircuitBreakerPolicy.throwIfTripped,
      DefaultCircuitBreakerPolicy.isCircuitBreakerOpen, h1, h2, h3]
  · have h3 : ¬(p.nextRetry ≤ now ∧ p.shouldRetry = false) := h2
    simp only [DefaultCircuitBreakerPolicy.throwIfTripped,
      DefaultCircuitBreakerPolicy.isCircuitBreakerOpen, h1]
    by_cases hle : p.nextRetry ≤ now
    · cases hsr : p.shouldRetry
      · exact absurd ⟨hle, hsr⟩ h3
      · simp [hle, hsr]
    · simp [hle]

/-- Witness for C9: a policy tripped at time 0 with `nextRetry = 2000`,
queried at time 1000 with a registered callback, raises the trip error
("tripped for 1 seconds") and invokes the callback; a fresh policy returns
normally. -/
theorem throwIfTripped_opens_iff_tripped_and_gated_witness :
    DefaultCircuitBreakerPolicy.throwIfTripped
      { circuitBreaker := { isTripped := true, trippedAt := some 0 },
        shouldRetry := false, consecutiveFailures := JSNum.int 0,
        nextRetry := 2000 } "Test" 1000 true =
      (some { message := "'Test' has been tripped for 1 seconds." }, true) ∧
    DefaultCircuitBreakerPolicy.throwIfTripped {} "Test" 1000 true =
      (none, false) := by
  constructor
  · have h := (throwIfTripped_opens_iff_tripped_and_gated
      { circuitBreaker := { isTripped := true, trippedAt := some 0 },
        shouldRetry := false, consecutiveFailures := JSNum.int 0,
        nextRetry := 2000 } "Test" 1000 true).2.2 rfl (by decide)
    rw [h]
    norm_num [CircuitBreakerBase.getTripError, jsNumRepr]
    rfl
  · exact (throwIfTripped_opens_iff_tripped_and_gated {} "Test" 1000 true).1 rfl

/-- C2 fails on the code: the wrapper's `reset()` restores `_nextRetry` and
the breaker, but never touches `_shouldRetry` (the spec's
`hasAttemptedSinceTrip`).  Concretely: a fully successful execution of a
fresh wrapper ends in the implicit `reset()`, yet leaves
`_shouldRetry = true` (the `finally` block set it just before), and an
explicit `reset()` of a wrapper whose `_shouldRetry` is true leaves it
true. -/
theorem reset_leaves_shouldRetry_counterexample :
    (ExecutionCircuitBreakerBase.execute (fun _ (u : Unit) => (false, u)) 5000
        "Test" {} () 0 0 none).2.1.shouldRetry = true ∧
    (ExecutionCircuitBreakerBase.reset
        { breaker := {}, nextRetry := 99, shouldRetry := true }).2.shouldRetry
      = true := by
  exact ⟨rfl, rfl⟩

/-- C2 amended: after the wrapper's `reset()` — explicit, or implicit after a
fully successful execution — `nextRetryAt` holds the minimum representable
timestamp and the breaker is untripped, but `hasAttemptedSinceTrip`
(`_shouldRetry`) is not restored: an explicit `reset()` leaves it unchanged,
and after a fully successful execution it is true. -/
theorem reset_restores_nextRetry_and_breaker_only
    {σ : Type} (shouldTripF : JSError → σ → Bool × σ) (retryInterval : Int)
    (name : String) (s : ExecutionCircuitBreakerBase) (strat : σ)
    (nowGate nowRun : Int)
    (hgate : s.gate name nowGate = none) :
    ((s.reset).2.nextRetry = minDateMs ∧
      (s.reset).2.breaker.isTripped = false ∧
      (s.reset).2.shouldRetry = s.shouldRetry) ∧
    ((ExecutionCircuitBreakerBase.execute shouldTripF retryInterval name
        s strat nowGate nowRun none).2.1.nextRetry = minDateMs ∧
      (ExecutionCircuitBreakerBase.execute shouldTripF retryInterval name
        s strat nowGate nowRun none).2.1.breaker.isTripped = false ∧
      (ExecutionCircuitBreakerBase.execute shouldTripF retryInterval name
        s strat nowGate nowRun none).2.1.shouldRetry = true) := by
  have hreset : ∀ t : ExecutionCircuitBreakerBase,
      (t.reset).2.nextRetry = minDateMs ∧
      (t.reset).2.breaker.isTripped = false ∧
      (t.reset).2.shouldRetry = t.shouldRetry := by
    intro t
    obtain ⟨⟨tr, ta⟩, nr, sr⟩ := t
    cases tr <;> simp [ExecutionCircuitBreakerBase.reset, CircuitBreakerBase.reset]
  refine ⟨hreset s, ?_⟩
  simp only [ExecutionCircuitBreakerBase.execute, hgate]
  exact ⟨(hreset _).1, (hreset _).2.1, (hreset _).2.2⟩

/-- Witness for C2's amended theorem: a fresh wrapper (gate passes trivially)
running a successful action at time 0. -/
theorem reset_restores_nextRetry_and_breaker_only_witness :
    ((ExecutionCircuitBreakerBase.reset
        { breaker := {}, nextRetry := 99, shouldRetry := true }).2.nextRetry
          = minDateMs ∧
      (ExecutionCircuitBreakerBase.reset
        { breaker := {}, nextRetry := 99, shouldRetry := true
        }).2.breaker.isTripped = false ∧
      (ExecutionCircuitBreakerBase.reset
        { breaker := {}, nextRetry := 99, shouldRetry := true }).2.shouldRetry
          = true) ∧
    ((ExecutionCircuitBreakerBase.execute (fun _ (u : Unit) => (false, u)) 5000
        "Test" { breaker := {}, nextRetry := 99, shouldRetry := true } () 0 0
        none).2.1.nextRetry = minDateMs ∧
      (ExecutionCircuitBreakerBase.execute (fun _ (u : Unit) => (false, u)) 5000
        "Test" { breaker := {}, nextRetry := 99, shouldRetry := true } () 0 0
        none).2.1.breaker.isTripped = false ∧
      (ExecutionCircuitBreakerBase.execute (fun _ (u : Unit) => (false, u)) 5000
        "Test" { breaker := {}, nextRetry := 99, shouldRetry := true } () 0 0
        none).2.1.shouldRetry = true) :=
  reset_restores_nextRetry_and_breaker_only (fun _ (u : Unit) => (false, u))
    5000 "Test" { breaker := {}, nextRetry := 99, shouldRetry := true } () 0 0
    rfl

/-- C3: while the breaker is tripped, `execute`/`executeAsync` raise the trip
error without running the action (the outcome and state are independent of
the action), except when both `now >= nextRetry` and `shouldRetry` hold, in
which case the gate swallows the trip error and lets the call through as a
half-open probe; and an error raised by `test()` that is not a
`CircuitBreakerError` propagates unchanged and is never swallowed. -/
theorem tripped_gate_blocks_unless_probe
    (s : ExecutionCircuitBreakerBase) (name : String) (now : Int) :
    (s.breaker.isTripped = true →
      (¬(s.nextRetry ≤ now ∧ s.shouldRetry = true) →
        s.gate name now =
          some (.circuitBreakerError (s.breaker.getTripError name now))) ∧
      ((s.nextRetry ≤ now ∧ s.shouldRetry = true) → s.gate name now = none)) ∧
    (∀ msg, s.attemptToProceed now (some (.otherError msg)) =
      some (.otherError msg)) ∧
    (∀ {σ : Type} (shouldTripF : JSError → σ → Bool × σ) (retryInterval : Int)
        (strat : σ) (nowRun : Int) (actionResult : Option JSError)
        (e : JSError),
      s.gate name now = some e →
      ExecutionCircuitBreakerBase.execute shouldTripF retryInterval name
        s strat now nowRun actionResult = (some e, s, strat)) := by
  refine ⟨fun htr => ⟨fun hblock => ?_, fun hprobe => ?_⟩,
    fun msg => rfl, ?_⟩
  · simp only [ExecutionCircuitBreakerBase.gate, CircuitBreakerBase.test, htr,
      if_true, Option.map_some, ExecutionCircuitBreakerBase.attemptToProceed,
      ExecutionCircuitBreakerBase.isTimeForRetry]
    by_cases hle : s.nextRetry ≤ now
    · cases hsr : s.shouldRetry
      · simp [hle, hsr]
      · exact absurd ⟨hle, hsr⟩ hblock
    · simp [hle]
  · obtain ⟨hle, hsr⟩ := hprobe
    simp [ExecutionCircuitBreakerBase.gate, CircuitBreakerBase.test, htr,
      ExecutionCircuitBreakerBase.attemptToProceed,
      ExecutionCircuitBreakerBase.isTimeForRetry, hle, hsr]
  · intro σ f ri strat nowRun ar e hg
    simp [ExecutionCircuitBreakerBase.execute, hg]

/-- Witness for C3: a wrapper tripped at time 0 with `nextRetry = 5000` and
no prior attempt, queried at time 1000, blocks with the trip error and does
not run the action; with `shouldRetry = true` and `nextRetry` elapsed, the
gate passes; an overridden `test()` throwing a foreign error propagates it. -/
theorem tripped_gate_blocks_unless_probe_witness :
    ExecutionCircuitBreakerBase.gate
      { breaker := { isTripped := true, trippedAt := some 0 },
        nextRetry := 5000, shouldRetry := false } "Test" 1000 =
      some (.circuitBreakerError
        (CircuitBreakerBase.getTripError
          { isTripped := true, trippedAt := some 0 } "Test" 1000)) ∧
    ExecutionCircuitBreakerBase.gate
      { breaker := { isTripped := true, trippedAt := some 0 },
        nextRetry := 5000, shouldRetry := true } "Test" 6000 = none ∧
    ExecutionCircuitBreakerBase.attemptToProceed
      { breaker := { isTripped := true, trippedAt := some 0 },
        nextRetry := 5000, shouldRetry := false } 1000
      (some (.otherError "TestError")) = some (.otherError "TestError") ∧
    ExecutionCircuitBreakerBase.execute (fun _ (u : Unit) => (true, u)) 5000
      "Test"
      { breaker := { isTripped := true, trippedAt := some 0 },
        nextRetry := 5000, shouldRetry := false } () 1000 1000
      (some (.otherError "TestError")) =
      (some (.circuitBreakerError
        (CircuitBreakerBase.getTripError
          { isTripped := true, trippedAt := some 0 } "Test" 1000)),
       { breaker := { isTripped := true, trippedAt := some 0 },
         nextRetry := 5000, shouldRetry := false }, ()) := by
  refine ⟨?_, ?_, ?_, ?_⟩
  · exact ((tripped_gate_blocks_unless_probe
      { breaker := { isTripped := true, trippedAt := some 0 },
        nextRetry := 5000, shouldRetry := false } "Test" 1000).1 rfl).1
      (by decide)
  · exact ((tripped_gate_blocks_unless_probe
      { breaker := { isTripped := true, trippedAt := some 0 },
        nextRetry := 5000, shouldRetry := true } "Test" 6000).1 rfl).2
      (by decide)
  · exact (tripped_gate_blocks_unless_probe
      { breaker := { isTripped := true, trippedAt := some 0 },
        nextRetry := 5000, shouldRetry := false } "Test" 1000).2.1 "TestError"
  · exact (tripped_gate_blocks_unless_probe
      { breaker := { isTripped := true, trippedAt := some 0 },
        nextRetry := 5000, shouldRetry := false } "Test" 1000).2.2
      (fun _ (u : Unit) => (true, u)) 5000 () 1000
      (some (.otherError "TestError")) _ rfl

/-- C4: when the gate passes and the action raises `e` (and the strategy's
`shouldTrip` is a function that returns, i.e. does not itself raise), the
wrapper re-raises `e` itself, unchanged, whether or not a trip occurred;
when `shouldTrip e` is true, `nextRetry` becomes `now + retryInterval` and
the breaker ends tripped; when it is false, the only state change is
`shouldRetry = true`. -/
theorem action_error_rethrown_after_bookkeeping
    {σ : Type} (shouldTripF : JSError → σ → Bool × σ) (retryInterval : Int)
    (name : String) (s : ExecutionCircuitBreakerBase) (strat : σ)
    (nowGate nowRun : Int) (e : JSError)
    (hgate : s.gate name nowGate = none) :
    (ExecutionCircuitBreakerBase.execute shouldTripF retryInterval name
      s strat nowGate nowRun (some e)).1 = some e ∧
    ((shouldTripF e strat).1 = true →
      (ExecutionCircuitBreakerBase.execute shouldTripF retryInterval name
        s strat nowGate nowRun (some e)).2.1.nextRetry
          = nowRun + retryInterval ∧
      (ExecutionCircuitBreakerBase.execute shouldTripF retryInterval name
        s strat nowGate nowRun (some e)).2.1.breaker.isTripped = true) ∧
    ((shouldTripF e strat).1 = false →
      (ExecutionCircuitBreakerBase.execute shouldTripF retryInterval name
        s strat nowGate nowRun (some e)).2.1
          = { s with shouldRetry := true }) := by
  refine ⟨?_, fun htrip => ?_, fun hno => ?_⟩
  · simp [ExecutionCircuitBreakerBase.execute, hgate]
  · have htripped : ((s.breaker.trip nowRun).2).isTripped = true := by
      obtain ⟨tr, ta⟩ := s.breaker
      cases tr <;> simp [CircuitBreakerBase.trip]
    simp [ExecutionCircuitBreakerBase.execute, hgate, htrip, htripped]
  · simp [ExecutionCircuitBreakerBase.execute, hgate, hno]

/-- Witness for C4: a fresh wrapper whose action throws a trip-worthy error
at time 1000 with `retryInterval = 5000`: the error is re-raised and the
state shows `nextRetry = 6000` and a tripped breaker; with a non-tripping
strategy only `shouldRetry` changes. -/
theorem action_error_rethrown_after_bookkeeping_witness :
    (ExecutionCircuitBreakerBase.execute (fun _ (u : Unit) => (true, u)) 5000
      "Test" {} () 1000 1000 (some (.otherError "TestError"))).1 =
      some (.otherError "TestError") ∧
    (ExecutionCircuitBreakerBase.execute (fun _ (u : Unit) => (true, u)) 5000
      "Test" {} () 1000 1000
      (some (.otherError "TestError"))).2.1.nextRetry = 6000 ∧
    (ExecutionCircuitBreakerBase.execute (fun _ (u : Unit) => (true, u)) 5000
      "Test" {} () 1000 1000
      (some (.otherError "TestError"))).2.1.breaker.isTripped = true ∧
    (ExecutionCircuitBreakerBase.execute (fun _ (u : Unit) => (false, u)) 5000
      "Test" {} () 1000 1000 (some (.otherError "TestError"))).2.1 =
      { breaker := {}, nextRetry := minDateMs, shouldRetry := true } := by
  refine ⟨?_, ?_, ?_, ?_⟩
  · exact (action_error_rethrown_after_bookkeeping
      (fun _ (u : Unit) => (true, u)) 5000 "Test" {} () 1000 1000
      (.otherError "TestError") rfl).1
  · exact ((action_error_rethrown_after_bookkeeping
      (fun _ (u : Unit) => (true, u)) 5000 "Test" {} () 1000 1000
      (.otherError "TestError") rfl).2.1 rfl).1
  · exact ((action_error_rethrown_after_bookkeeping
      (fun _ (u : Unit) => (true, u)) 5000 "Test" {} () 1000 1000
      (.otherError "TestError") rfl).2.1 rfl).2
  · exact (action_error_rethrown_after_bookkeeping
      (fun _ (u : Unit) => (false, u)) 5000 "Test" {} () 1000 1000
      (.otherError "TestError") rfl).2.2 rfl

/-- C5: the threshold strategy's `shouldTrip` throws when the error argument
is absent (the spec's `MissingArgumentError`); a non-failure (per the
external failure detector) returns false and leaves the window untouched; a
failure first resets the window (`count = 0`,
`windowEndsAt = now + intervalLength`) when `now > windowEndsAt`, then
increments the count and returns exactly `count > errorThreshold`.  In the
concrete scenario with `errorThreshold = 1` and a large interval, the first
qualifying failure on a fresh breaker yields false and the second yields
true. -/
theorem thresholdShouldTrip_matches_window_spec
    (st : ThresholdState) (failureDetector : JSError → Bool)
    (errorCountGetter errorIntervalGetter now : Int) :
    (thresholdShouldTrip st failureDetector errorCountGetter
        errorIntervalGetter now none =
      .error "error cannot be null or undefined.") ∧
    (∀ e, failureDetector e = false →
      thresholdShouldTrip st failureDetector errorCountGetter
        errorIntervalGetter now (some e) = .ok (false, st)) ∧
    (∀ e, failureDetector e = true →
      thresholdShouldTrip st failureDetector errorCountGetter
          errorIntervalGetter now (some e) =
        (let w := if st.errorCountIntervalEnd < now
            then { errorCount := JSNum.int 0,
                   errorCountIntervalEnd := now + errorIntervalGetter }
            else st
         let w2 : ThresholdState := { w with errorCount := w.errorCount.incr }
         .ok (w2.errorCount.gtInt errorCountGetter, w2))) ∧
    (thresholdShouldTrip {} (fun _ => true) 1 1000000000 1000
        (some (.otherError "Test error")) =
      .ok (false, { errorCountIntervalEnd := 1000001000,
                    errorCount := JSNum.int 1 })) ∧
    (thresholdShouldTrip
        { errorCountIntervalEnd := 1000001000, errorCount := JSNum.int 1 }
        (fun _ => true) 1 1000000000 2000 (some (.otherError "Test error")) =
      .ok (true, { errorCountIntervalEnd := 1000001000,
                   errorCount := JSNum.int 2 })) := by
  refine ⟨rfl, fun e he => ?_, fun e he => ?_, rfl, rfl⟩
  · simp [thresholdShouldTrip, he]
  · simp only [thresholdShouldTrip, he, if_true, resetErrorCount]
    by_cases hw : st.errorCountIntervalEnd < now <;>
      simp only [hw, ite_true, ite_false] <;> split <;> simp_all

/-- Witness for C5: a detector that rejects everything returns false without
touching a fresh window; an absent error throws. -/
theorem thresholdShouldTrip_matches_window_spec_witness :
    thresholdShouldTrip {} (fun _ => false) 1 0 1000 none =
      .error "error cannot be null or undefined." ∧
    thresholdShouldTrip {} (fun _ => false) 1 0 1000
      (some (.otherError "Test error")) = .ok (false, {}) :=
  ⟨(thresholdShouldTrip_matches_window_spec {} (fun _ => false) 1 0 1000).1,
   (thresholdShouldTrip_matches_window_spec {} (fun _ => false) 1 0
     1000).2.1 (.otherError "Test error") rfl⟩

/-- C6: for arguments in the claimed range, `calculateBackoff` returns the
spec formula: clamped attempt, base delay `min(baseDelay*2^(attempt-1),
maxDelay)`, and the jitter mode applied to the single random draw `r`; in
particular `calculateBackoff 5 5 100 1000 Full` with the random source fixed
at 1/2 returns 500.  (The single draw is structural in the embedding: the
one `nextRandomValue` parameter feeds every jitter branch.) -/
theorem calculateBackoff_matches_spec_formula
    (attempt maxAttempts : Int) (baseDelay maxDelay r : ℚ) (j : Jitter)
    (h1 : 0 ≤ attempt) (h2 : attempt ≤ 10)
    (h3 : 0 ≤ maxAttempts) (h4 : maxAttempts ≤ 10)
    (h5 : 0 ≤ baseDelay) (h6 : baseDelay ≤ 10)
    (h7 : 0 ≤ maxDelay) (h8 : maxDelay ≤ 10)
    (h9 : 0 ≤ r) (h10 : r < 1) :
    calculateBackoff attempt maxAttempts baseDelay maxDelay j r =
      .ok (backoffWithJitter
        (backoffBaseDelay attempt maxAttempts baseDelay maxDelay) r j) ∧
    calculateBackoff 5 5 100 1000 .full (1/2) = .ok 500 := by
  constructor
  · have hcond : ¬(maxAttempts < 0 ∨ ceilingForMaxAttempts < maxAttempts) := by
      push_neg
      exact ⟨h3, by simpa [ceilingForMaxAttempts] using h4⟩
    simp only [calculateBackoff, hcond, if_false, ite_false]
    have hmin : (if maxAttempts < attempt then maxAttempts else attempt)
        = min attempt maxAttempts := by
      rcases lt_or_ge maxAttempts attempt with h | h
      · simp [h, min_eq_right h.le]
      · simp [not_lt.mpr h, min_eq_left h]
    rw [hmin]
    cases j <;>
      simp only [backoffWithJitter, backoffBaseDelay, Except.ok.injEq] <;>
      ring
  · have h2pow : (2 : ℚ) ^ ((5:ℤ) - 1) = 16 := by norm_num
    simp only [calculateBackoff, ceilingForMaxAttempts]
    norm_num [h2pow]

/-- Witness for C6 at `attempt=2, maxAttempts=5, baseDelay=3, maxDelay=10,
jitter=None, r=1/2`: the spec formula gives `min(3*2, 10) = 6`. -/
theorem calculateBackoff_matches_spec_formula_witness :
    calculateBackoff 2 5 3 10 Jitter.none (1/2) =
      .ok (backoffWithJitter (backoffBaseDelay 2 5 3 10) (1/2) Jitter.none) ∧
    calculateBackoff 5 5 100 1000 Jitter.full (1/2) = .ok 500 :=
  calculateBackoff_matches_spec_formula 2 5 3 10 (1/2) Jitter.none
    (by norm_num) (by norm_num) (by norm_num) (by norm_num) (by norm_num)
    (by norm_num) (by norm_num) (by norm_num) (by norm_num) (by norm_num)

/-- C7: `calculateBackoff` throws its `OutOfRangeError` exactly when
`maxAttempts < 0` or `maxAttempts > 10`, whatever the other arguments; in
particular `maxAttempts = -1` and `maxAttempts = 11` always throw. -/
theorem calculateBackoff_throws_iff_maxAttempts_out_of_range
    (attempt maxAttempts : Int) (baseDelay maxDelay r : ℚ) (j : Jitter) :
    (isThrown (calculateBackoff attempt maxAttempts baseDelay maxDelay j r)
        = true ↔ maxAttempts < 0 ∨ 10 < maxAttempts) ∧
    calculateBackoff attempt (-1) baseDelay maxDelay j r =
      .error "The max attempts must be between 0 and 10." ∧
    calculateBackoff attempt 11 baseDelay maxDelay j r =
      .error "The max attempts must be between 0 and 10." := by
  refine ⟨?_, ?_, ?_⟩
  · by_cases hc : maxAttempts < 0 ∨ (10:ℤ) < maxAttempts
    · simp [calculateBackoff, ceilingForMaxAttempts, hc, isThrown]
    · simp only [calculateBackoff, ceilingForMaxAttempts, hc, if_false,
        ite_false]
      cases j <;> simp [isThrown, hc]
  · simp [calculateBackoff, ceilingForMaxAttempts]
  · simp [calculateBackoff, ceilingForMaxAttempts]

/-- Witness for C7: `maxAttempts = 11` and `maxAttempts = -1` throw at a
concrete argument vector. -/
theorem calculateBackoff_throws_iff_maxAttempts_out_of_range_witness :
    isThrown (calculateBackoff 3 11 100 1000 Jitter.none (1/2)) = true ∧
    calculateBackoff 3 (-1) 100 1000 Jitter.none (1/2) =
      .error "The max attempts must be between 0 and 10." ∧
    calculateBackoff 3 11 100 1000 Jitter.none (1/2) =
      .error "The max attempts must be between 0 and 10." :=
  ⟨(calculateBackoff_throws_iff_maxAttempts_out_of_range 3 11 100 1000 (1/2)
      Jitter.none).1.mpr (by norm_num),
   (calculateBackoff_throws_iff_maxAttempts_out_of_range 3 (-1) 100 1000 (1/2)
      Jitter.none).2.1,
   (calculateBackoff_throws_iff_maxAttempts_out_of_range 3 11 100 1000 (1/2)
      Jitter.none).2.2⟩
